import Mathlib

/-!
# shrmem64: shared and common 64-bit memory objects

A shallow embedding of `c/shrmem64.c` (zowe-common-c).

Conventions of the embedding.

* A C `int` is a Lean `Int`; a `uint32_t`/`unsigned` is a `Nat` below `2^32`; a
  `uint64_t`, `size_t`, `MemObj`, `MemObjToken` or `void *` is a `Nat` below `2^64`
  (the file refuses to compile unless `_LP64` is defined).  Conversions between the
  signed and unsigned 32-bit types are the explicit functions `toUInt32` and `toInt32`
  (two's complement, as on z/Architecture).
* Each `__asm` block issues one `IARV64` request.  The service is a parameter
  (`Facility`): it maps the request to the three values the macro stores
  (`ORIGIN`, `RETCODE`, `RSNCODE`).
* The stores a public operation performs through its output pointers `result` and
  `rsn` are recorded as `Option` values: `none` means that no store happened.
-/

namespace Shrmem64

/-! ## Machine integers -/

/-- Conversion of an `int` to `unsigned` / `uint32_t`: reduction modulo `2^32`. -/
def toUInt32 (x : Int) : Nat := (x % 4294967296).toNat

/-- Conversion of a `uint32_t` to `int`: the two's complement reading of the word. -/
def toInt32 (n : Nat) : Int :=
  if n % 4294967296 < 2147483648 then ((n % 4294967296 : Nat) : Int)
  else ((n % 4294967296 : Nat) : Int) - 4294967296

/-! ## Return codes of the interface -/

/-- The return-code macros of `shrmem64.h`.  The header is not among the sources, so
the values of the macros are parameters of the embedding. -/
structure ReturnCodes where
  RC_SHRMEM64_OK : Int
  RC_SHRMEM64_GETSHARED_FAILED : Int
  RC_SHRMEM64_GETCOMMON_FAILED : Int
  RC_SHRMEM64_SHAREMEMOBJ_FAILED : Int
  RC_SHRMEM64_DETACH_FAILED : Int
  RC_SHRMEM64_SINGLE_SYS_DETACH_FAILED : Int
  RC_SHRMEM64_ALL_SYS_DETACH_FAILED : Int
  deriving Repr, DecidableEq

/-- The six error kinds, in the order of the spec's taxonomy. -/
def ReturnCodes.kinds (K : ReturnCodes) : List Int :=
  [K.RC_SHRMEM64_GETSHARED_FAILED, K.RC_SHRMEM64_GETCOMMON_FAILED,
   K.RC_SHRMEM64_SHAREMEMOBJ_FAILED, K.RC_SHRMEM64_DETACH_FAILED,
   K.RC_SHRMEM64_SINGLE_SYS_DETACH_FAILED, K.RC_SHRMEM64_ALL_SYS_DETACH_FAILED]

/-- Modelled from the spec: `shrmem64.h`, which defines the return-code macros, is
missing.  The spec says that the success code is a distinguished zero value, that there
is one named error kind per request type that can fail, and that the error kind is an
8-bit classification: the success code is `0` and the six error kinds are pairwise
distinct values in `1..255`. -/
def ReturnCodes.WellFormed (K : ReturnCodes) : Prop :=
  K.RC_SHRMEM64_OK = 0 ∧ K.kinds.Nodup ∧ ∀ k ∈ K.kinds, 1 ≤ k ∧ k ≤ 255

instance (K : ReturnCodes) : Decidable K.WellFormed := by
  unfold ReturnCodes.WellFormed
  infer_instance

/-- A well-formed assignment of the return-code macros, used to evaluate the operations
on concrete inputs. -/
def exampleCodes : ReturnCodes where
  RC_SHRMEM64_OK := 0
  RC_SHRMEM64_GETSHARED_FAILED := 8
  RC_SHRMEM64_GETCOMMON_FAILED := 13
  RC_SHRMEM64_SHAREMEMOBJ_FAILED := 9
  RC_SHRMEM64_DETACH_FAILED := 10
  RC_SHRMEM64_SINGLE_SYS_DETACH_FAILED := 11
  RC_SHRMEM64_ALL_SYS_DETACH_FAILED := 12

/-! ## Status classification and encoding -/

/-- The function `isIARV64OK`: `return iarv64RC < 8;`. -/
def isIARV64OK (iarv64RC : Int) : Bool := decide (iarv64RC < 8)

/-- The function `makeRSN`:
`((unsigned)shrmem64RC << 24) | ((unsigned)iarv64RC << 16) | ((iarv64RSN >> 8) & 0x0000FFFF)`,
stored into an `int`.  Shifts of `unsigned` values are reduced modulo `2^32`; `>>` on the
signed reason code is the arithmetic shift; `&` of two `int`s acts on their two's
complement words. -/
def makeRSN (shrmem64RC iarv64RC iarv64RSN : Int) : Int :=
  let rc : Nat :=
    ((toUInt32 shrmem64RC <<< 24) % 4294967296) |||
    ((toUInt32 iarv64RC <<< 16) % 4294967296) |||
    toUInt32 (toInt32 (toUInt32 (iarv64RSN >>> (8 : Nat)) &&& 0x0000FFFF))
  toInt32 rc

/-- Bits 31-24 of a composite status, the `int` read as an unsigned 32-bit word. -/
def rsnKind (rsn : Int) : Nat := toUInt32 rsn / 16777216

/-- Bits 23-16 of a composite status. -/
def rsnRC (rsn : Int) : Nat := toUInt32 rsn / 65536 % 256

/-- Bits 15-0 of a composite status. -/
def rsnLow (rsn : Int) : Nat := toUInt32 rsn % 65536

/-! ## The IARV64 service -/

/-- The requests the file issues, one constructor per combination of keywords that
distinguishes the `__asm` blocks (`COND=YES`, `PLISTVER=4`, `MOTKNCREATOR=USER` and
`FPROT=NO` are the same wherever they occur). -/
inductive Request where
  /-- `REQUEST=GETSHARED,USERTKN=,SEGMENTS=`. -/
  | GETSHARED (segments usertkn : Nat)
  /-- `REQUEST=GETCOMMON,MOTKN=,KEY=,SEGMENTS=`. -/
  | GETCOMMON (segments motkn key : Nat)
  /-- `REQUEST=SHAREMEMOBJ,USERTKN=,RANGLIST=,NUMRANGE=1` with the one range `{vsa, 0}`. -/
  | SHAREMEMOBJ (vsa usertkn : Nat)
  /-- `REQUEST=DETACH,MATCH=SINGLE,MEMOBJSTART=,MOTKN=,AFFINITY=LOCAL,OWNER=YES|NO`. -/
  | DETACH_SINGLE_LOCAL (memobjstart motkn : Nat) (owner : Bool)
  /-- `REQUEST=DETACH,MATCH=MOTOKEN,MOTKN=,AFFINITY=LOCAL,OWNER=YES`. -/
  | DETACH_MOTOKEN_LOCAL (motkn : Nat)
  /-- `REQUEST=DETACH,MATCH=MOTOKEN,MOTKN=,AFFINITY=SYSTEM`. -/
  | DETACH_MOTOKEN_SYSTEM (motkn : Nat)
  /-- `REQUEST=DETACH,MATCH=SINGLE,MEMOBJSTART=,MOTKN=,AFFINITY=SYSTEM`. -/
  | DETACH_SINGLE_SYSTEM (memobjstart motkn : Nat)
  deriving Repr, DecidableEq

/-- What the service stores for one request: the doubleword at `ORIGIN` (requests
without `ORIGIN=` ignore it) and the fullwords at `RETCODE` and `RSNCODE`. -/
structure Reply where
  origin : Nat
  retcode : Int
  rsncode : Int
  deriving Repr, DecidableEq

/-- The service: the reply it gives to each request at the time of the call. -/
abbrev Facility := Request → Reply

/-- What a request issuer hands back: the request it issued and the two `uint32_t`
values it stored through `iarv64RC` and `iarv64RSN` (every caller in the file passes
non-null pointers, so both stores happen). -/
structure Issued where
  request : Request
  iarv64RC : Nat
  iarv64RSN : Nat
  deriving Repr, DecidableEq

/-- The `int` that `localRC` holds after the request: the fullword the service stored
at `RETCODE`. -/
def facilityRC (sys : Facility) (request : Request) : Int :=
  toInt32 (toUInt32 (sys request).retcode)

/-- The `int` that `localRSN` holds after the request: the fullword the service stored
at `RSNCODE`. -/
def facilityRSN (sys : Facility) (request : Request) : Int :=
  toInt32 (toUInt32 (sys request).rsncode)

/-- The common tail of every request issuer: `*iarv64RC = localRC;` and
`*iarv64RSN = localRSN;` convert the two `int`s to `uint32_t`. -/
def issue (sys : Facility) (request : Request) : Issued :=
  let localRC : Int := facilityRC sys request
  let localRSN : Int := facilityRSN sys request
  { request := request, iarv64RC := toUInt32 localRC, iarv64RSN := toUInt32 localRSN }

/-- The function `getSharedMemObject`; the first component is the returned `MemObj`. -/
def getSharedMemObject (sys : Facility) (segmentCount token : Nat) : Nat × Issued :=
  let request := Request.GETSHARED segmentCount token
  ((sys request).origin % 18446744073709551616, issue sys request)

/-- The two statements `char keyByte = key & 0xF; keyByte = (keyByte << 4);` of
`getCommonMemObject`, as the byte that ends up in storage. -/
def keyByte (key : Int) : Nat :=
  let keyByte : Nat := (toUInt32 key &&& 0xF) % 256
  (keyByte <<< 4) % 256

/-- The function `getCommonMemObject`; the first component is the returned `MemObj`. -/
def getCommonMemObject (sys : Facility) (segmentCount token : Nat) (key : Int) :
    Nat × Issued :=
  let request := Request.GETCOMMON segmentCount token (keyByte key)
  ((sys request).origin % 18446744073709551616, issue sys request)

/-- The function `shareMemObject`. -/
def shareMemObject (sys : Facility) (object token : Nat) : Issued :=
  issue sys (Request.SHAREMEMOBJ object token)

/-- The function `detachSingleSharedMemObject` (`OWNER=YES`). -/
def detachSingleSharedMemObject (sys : Facility) (object token : Nat) : Issued :=
  issue sys (Request.DETACH_SINGLE_LOCAL object token true)

/-- The function `detachSingleSharedMemObjectNotOwner` (`OWNER=NO`). -/
def detachSingleSharedMemObjectNotOwner (sys : Facility) (object token : Nat) : Issued :=
  issue sys (Request.DETACH_SINGLE_LOCAL object token false)

/-- The function `detachSharedMemObjects`. -/
def detachSharedMemObjects (sys : Facility) (token : Nat) : Issued :=
  issue sys (Request.DETACH_MOTOKEN_LOCAL token)

/-- The function `removeSystemInterestForAllObjects`. -/
def removeSystemInterestForAllObjects (sys : Facility) (token : Nat) : Issued :=
  issue sys (Request.DETACH_MOTOKEN_SYSTEM token)

/-- The function `removeSystemInterestForSingleObject`. -/
def removeSystemInterestForSingleObject (sys : Facility) (object token : Nat) : Issued :=
  issue sys (Request.DETACH_SINGLE_SYSTEM object token)

/-! ## Public operations -/

/-- The observable behaviour of one call of a public operation: the returned `int`, the
store through `result` (if any), the store through `rsn` (if any), and the requests
issued, in order. -/
structure Outcome where
  ret : Int
  result : Option Nat
  rsn : Option Int
  issued : List Request
  deriving Repr, DecidableEq

/-- The function `shrmem64Alloc`. -/
def shrmem64Alloc (K : ReturnCodes) (sys : Facility) (userToken size : Nat) : Outcome :=
  let segmentCount : Nat :=
    if size &&& 0xFFFFF = 0 then size >>> 20
    else ((size >>> 20) + 1) % 18446744073709551616
  let (mobj, r) := getSharedMemObject sys segmentCount userToken
  if !isIARV64OK (toInt32 r.iarv64RC) then
    { ret := K.RC_SHRMEM64_GETSHARED_FAILED
      result := none
      rsn := some (makeRSN K.RC_SHRMEM64_GETSHARED_FAILED
        (toInt32 r.iarv64RC) (toInt32 r.iarv64RSN))
      issued := [r.request] }
  else
    { ret := K.RC_SHRMEM64_OK, result := some mobj, rsn := none, issued := [r.request] }

/-- The function `shrmem64CommonAlloc2`. -/
def shrmem64CommonAlloc2 (K : ReturnCodes) (sys : Facility) (userToken size : Nat)
    (key : Int) : Outcome :=
  let segmentCount : Nat :=
    if size &&& 0xFFFFF = 0 then size >>> 20
    else ((size >>> 20) + 1) % 18446744073709551616
  let (mobj, r) := getCommonMemObject sys segmentCount userToken key
  if !isIARV64OK (toInt32 r.iarv64RC) then
    { ret := K.RC_SHRMEM64_GETSHARED_FAILED
      result := none
      rsn := some (makeRSN K.RC_SHRMEM64_GETCOMMON_FAILED
        (toInt32 r.iarv64RC) (toInt32 r.iarv64RSN))
      issued := [r.request] }
  else
    { ret := K.RC_SHRMEM64_OK, result := some mobj, rsn := none, issued := [r.request] }

/-- The function `shrmem64CommonAlloc`. -/
def shrmem64CommonAlloc (K : ReturnCodes) (sys : Facility) (userToken size : Nat) :
    Outcome :=
  shrmem64CommonAlloc2 K sys userToken size 0

/-- The function `shrmem64Release`. -/
def shrmem64Release (K : ReturnCodes) (sys : Facility) (userToken target : Nat) :
    Outcome :=
  let mobj := target
  let r := removeSystemInterestForSingleObject sys mobj userToken
  if !isIARV64OK (toInt32 r.iarv64RC) then
    { ret := K.RC_SHRMEM64_SINGLE_SYS_DETACH_FAILED
      result := none
      rsn := some (makeRSN K.RC_SHRMEM64_SINGLE_SYS_DETACH_FAILED
        (toInt32 r.iarv64RC) (toInt32 r.iarv64RSN))
      issued := [r.request] }
  else
    { ret := K.RC_SHRMEM64_OK, result := none, rsn := none, issued := [r.request] }

/-- The function `shrmem64ReleaseAll`. -/
def shrmem64ReleaseAll (K : ReturnCodes) (sys : Facility) (userToken : Nat) : Outcome :=
  let r := removeSystemInterestForAllObjects sys userToken
  if !isIARV64OK (toInt32 r.iarv64RC) then
    { ret := K.RC_SHRMEM64_ALL_SYS_DETACH_FAILED
      result := none
      rsn := some (makeRSN K.RC_SHRMEM64_ALL_SYS_DETACH_FAILED
        (toInt32 r.iarv64RC) (toInt32 r.iarv64RSN))
      issued := [r.request] }
  else
    { ret := K.RC_SHRMEM64_OK, result := none, rsn := none, issued := [r.request] }

/-- The function `shrmem64GetAccess`. -/
def shrmem64GetAccess (K : ReturnCodes) (sys : Facility) (userToken target : Nat) :
    Outcome :=
  let mobj := target
  let r := shareMemObject sys mobj userToken
  if !isIARV64OK (toInt32 r.iarv64RC) then
    { ret := K.RC_SHRMEM64_SHAREMEMOBJ_FAILED
      result := none
      rsn := some (makeRSN K.RC_SHRMEM64_SHAREMEMOBJ_FAILED
        (toInt32 r.iarv64RC) (toInt32 r.iarv64RSN))
      issued := [r.request] }
  else
    { ret := K.RC_SHRMEM64_OK, result := none, rsn := none, issued := [r.request] }

/-- The function `shrmem64RemoveAccess`. -/
def shrmem64RemoveAccess (K : ReturnCodes) (sys : Facility) (userToken target : Nat) :
    Outcome :=
  let mobj := target
  let r := detachSingleSharedMemObject sys mobj userToken
  if !isIARV64OK (toInt32 r.iarv64RC) then
    { ret := K.RC_SHRMEM64_DETACH_FAILED
      result := none
      rsn := some (makeRSN K.RC_SHRMEM64_DETACH_FAILED
        (toInt32 r.iarv64RC) (toInt32 r.iarv64RSN))
      issued := [r.request] }
  else
    { ret := K.RC_SHRMEM64_OK, result := none, rsn := none, issued := [r.request] }

/-- The function `shrmem64RemoveAccess2`. -/
def shrmem64RemoveAccess2 (K : ReturnCodes) (sys : Facility) (userToken target : Nat)
    (isOwner : Bool) : Outcome :=
  let mobj := target
  let r :=
    if isOwner then detachSingleSharedMemObject sys mobj userToken
    else detachSingleSharedMemObjectNotOwner sys mobj userToken
  if !isIARV64OK (toInt32 r.iarv64RC) then
    { ret := K.RC_SHRMEM64_DETACH_FAILED
      result := none
      rsn := some (makeRSN K.RC_SHRMEM64_DETACH_FAILED
        (toInt32 r.iarv64RC) (toInt32 r.iarv64RSN))
      issued := [r.request] }
  else
    { ret := K.RC_SHRMEM64_OK, result := none, rsn := none, issued := [r.request] }

/-! ## The address-space token -/

/-- The storage `shrmem64GetAddressSpaceToken` reads.  `zos.h`, which defines
`CURRENT_ASCB` and the `ASCB` structure, is not among the sources, so the macro, the
fullwords of low storage and the value of the field `ascbasid` of the ASCB at a given
address are parameters. -/
structure LowCore where
  /-- The macro `CURRENT_ASCB`, a byte offset into low storage. -/
  CURRENT_ASCB : Nat
  /-- The fullword `mem[i]` of `int *mem = (int*)0`, as an unsigned 32-bit word. -/
  mem : Nat → Nat
  /-- The value of `ascb->ascbasid` for the ASCB at the given address. -/
  ascbasid : Nat → Nat

/-- The function `localGetASCB`: `mem[CURRENT_ASCB/sizeof(int)] & 0x7FFFFFFF`. -/
def localGetASCB (m : LowCore) : Nat :=
  (m.mem (m.CURRENT_ASCB / 4) % 4294967296) &&& 0x7FFFFFFF

/-- The four bytes of a 32-bit member in storage, most significant first (z/Architecture
is big-endian). -/
def storeBE32 (v : Nat) : List Nat :=
  [v / 16777216 % 256, v / 65536 % 256, v / 256 % 256, v % 256]

/-- The unsigned integer a run of bytes holds, most significant byte first. -/
def loadBE (bytes : List Nat) : Nat :=
  bytes.foldl (fun acc b => acc * 256 + b) 0

/-- The function `shrmem64GetAddressSpaceToken`.  The union overlays the 64-bit `token`
on the struct `{ASCB * __ptr32 ascb; uint32_t asid;}`: `ascb` occupies bytes 0-3, `asid`
bytes 4-7, and `token` is the doubleword those eight bytes hold.  The initializers are
taken in the order written, so `result.ascb` is set when `.asid` is computed. -/
def shrmem64GetAddressSpaceToken (m : LowCore) : Nat :=
  let ascb : Nat := localGetASCB m % 4294967296
  let asid : Nat := m.ascbasid ascb % 4294967296
  loadBE (storeBE32 ascb ++ storeBE32 asid)

/-! ## Vocabulary of the specification -/

/-- The spec's rounding rule, in its own words: `units(s) = s / 2^20` when
`s mod 2^20 = 0`, and `floor(s / 2^20) + 1` otherwise. -/
def specUnits (s : Nat) : Nat :=
  if s % 1048576 = 0 then s / 1048576 else s / 1048576 + 1

/-- The call failed with error kind `kind` on facility return code `rc`: it returned
`kind` and stored through `rsn` a composite status whose bits 31-24 are `kind` and whose
bits 23-16 are `rc`. -/
def Outcome.FailedWith (o : Outcome) (kind rc : Int) : Prop :=
  o.ret = kind ∧ ∃ v, o.rsn = some v ∧ (rsnKind v : Int) = kind ∧ (rsnRC v : Int) = rc

/-- The call stored through exactly one of its two output pointers. -/
def Outcome.WritesOne (o : Outcome) : Prop :=
  (o.result.isSome = true ∧ o.rsn = none) ∨ (o.result = none ∧ o.rsn.isSome = true)

/-- The call issued exactly the request `req`, and it returns the success code exactly
when the facility return code for `req`, stored as `uint32_t` and converted back to
`int`, is below 8. -/
def Outcome.OKIff (o : Outcome) (K : ReturnCodes) (sys : Facility) (req : Request) : Prop :=
  o.issued = [req] ∧
    (o.ret = K.RC_SHRMEM64_OK ↔ toInt32 (toUInt32 (facilityRC sys req)) < 8)

/-- The call issued exactly the request `req`, and if the facility answers `req` with
return code `rc` the call failed with error kind `kind` on `rc`. -/
def Outcome.ReportsFailure (o : Outcome) (sys : Facility) (req : Request)
    (kind rc : Int) : Prop :=
  o.issued = [req] ∧ ((sys req).retcode = rc → o.FailedWith kind rc)

/-- The frame of an allocator call that issued `req` and reports failures under
`kind`: the one request issued is `req`; exactly one output pointer is stored through; on
a facility return code below 8 the call returns the success code, stores the handle the
facility returned for `req` through `result` and nothing through `rsn`; on a return code
of 8 or more it stores the composite status through `rsn` and nothing through `result`. -/
def Outcome.AllocFrame (o : Outcome) (K : ReturnCodes) (sys : Facility) (req : Request)
    (kind : Int) : Prop :=
  o.issued = [req] ∧ o.WritesOne ∧
  (facilityRC sys req < 8 →
    o.ret = K.RC_SHRMEM64_OK ∧ o.result = some ((sys req).origin % 18446744073709551616) ∧
      o.rsn = none) ∧
  (8 ≤ facilityRC sys req →
    o.result = none ∧
      o.rsn = some (makeRSN kind (facilityRC sys req) (facilityRSN sys req)))

/-- Normal form of the tail shared by the public operations: the one request `req` was
issued; on a facility return code of 8 or more the call returns `failRet` and stores
`makeRSN failKind rc rsn` through `rsn`; otherwise it returns `okRet` and stores `mobj`
(if any) through `result`. -/
def outcomeOf (sys : Facility) (req : Request) (okRet failRet failKind : Int)
    (mobj : Option Nat) : Outcome :=
  if 8 ≤ facilityRC sys req then
    { ret := failRet, result := none,
      rsn := some (makeRSN failKind (facilityRC sys req) (facilityRSN sys req)),
      issued := [req] }
  else
    { ret := okRet, result := mobj, rsn := none, issued := [req] }

/-- A facility that gives the same reply to every request. -/
def constFacility (origin : Nat) (retcode rsncode : Int) : Facility :=
  fun _ => { origin := origin, retcode := retcode, rsncode := rsncode }

/-! ## Lemmas on machine integers -/

theorem toUInt32_lt (x : Int) : toUInt32 x < 4294967296 := by
  unfold toUInt32
  omega

theorem toUInt32_toInt32 (n : Nat) : toUInt32 (toInt32 n) = n % 4294967296 := by
  unfold toUInt32 toInt32
  split <;> omega

theorem toInt32_toUInt32 (x : Int) (hlo : -2147483648 ≤ x) (hhi : x < 2147483648) :
    toInt32 (toUInt32 x) = x := by
  unfold toUInt32 toInt32
  split <;> omega

theorem lor_mod_two_pow (a b n : Nat) : (a ||| b) % 2 ^ n = a % 2 ^ n ||| b % 2 ^ n := by
  apply Nat.eq_of_testBit_eq
  intro i
  simp only [Nat.testBit_mod_two_pow, Nat.testBit_or]
  cases decide (i < n) <;> simp

theorem lor_div_two_pow (a b n : Nat) : (a ||| b) / 2 ^ n = a / 2 ^ n ||| b / 2 ^ n := by
  simp only [← Nat.shiftRight_eq_div_pow]
  apply Nat.eq_of_testBit_eq
  intro i
  simp only [Nat.testBit_shiftRight, Nat.testBit_or]

/-- The reason-code operand of `makeRSN`, `(iarv64RSN >> 8) & 0xFFFF` converted to
`unsigned`, is bits 23-8 of the reason code's word. -/
theorem rsn_operand (rsn : Int) :
    toUInt32 (toInt32 (toUInt32 (rsn >>> (8 : Nat)) &&& 0x0000FFFF)) = toUInt32 rsn / 256 % 65536 := by
  have h1 : toUInt32 (rsn >>> (8 : Nat)) &&& 0x0000FFFF = toUInt32 (rsn >>> (8 : Nat)) % 65536 :=
    Nat.and_pow_two_sub_one_eq_mod _ 16
  rw [h1, toUInt32_toInt32, Int.shiftRight_eq_div_pow]
  unfold toUInt32
  norm_num
  omega

/-- The three fields of `makeRSN` for arbitrary arguments. -/
theorem makeRSN_word (kind rc rsn : Int) :
    toUInt32 (makeRSN kind rc rsn) =
      ((toUInt32 kind * 16777216) % 4294967296) |||
      ((toUInt32 rc * 65536) % 4294967296) ||| (toUInt32 rsn / 256 % 65536) := by
  unfold makeRSN
  simp only [rsn_operand, Nat.shiftLeft_eq]
  rw [toUInt32_toInt32]
  apply Nat.mod_eq_of_lt
  apply Nat.or_lt_two_pow (n := 32)
  · apply Nat.or_lt_two_pow (n := 32) <;> omega
  · omega

theorem toUInt32_wrap (x : Int) : toUInt32 (toInt32 (toUInt32 x)) = toUInt32 x := by
  rw [toUInt32_toInt32]
  exact Nat.mod_eq_of_lt (toUInt32_lt x)

theorem toInt32_wrap (x : Int) : toInt32 (toUInt32 (toInt32 (toUInt32 x))) = toInt32 (toUInt32 x) := by
  rw [toUInt32_wrap]

theorem issue_rc (sys : Facility) (req : Request) :
    toInt32 (issue sys req).iarv64RC = facilityRC sys req := by
  simp only [issue, facilityRC, toInt32_wrap]

theorem issue_rsn (sys : Facility) (req : Request) :
    toInt32 (issue sys req).iarv64RSN = facilityRSN sys req := by
  simp only [issue, facilityRSN, toInt32_wrap]

theorem issue_request (sys : Facility) (req : Request) : (issue sys req).request = req := rfl

theorem lor_mod_65536 (a b : Nat) : (a ||| b) % 65536 = a % 65536 ||| b % 65536 :=
  lor_mod_two_pow a b 16

theorem lor_mod_256 (a b : Nat) : (a ||| b) % 256 = a % 256 ||| b % 256 :=
  lor_mod_two_pow a b 8

theorem lor_div_65536 (a b : Nat) : (a ||| b) / 65536 = a / 65536 ||| b / 65536 :=
  lor_div_two_pow a b 16

theorem lor_div_16777216 (a b : Nat) : (a ||| b) / 16777216 = a / 16777216 ||| b / 16777216 :=
  lor_div_two_pow a b 24

/-- Bits 15-0 of the composite status, for arbitrary arguments. -/
theorem rsnLow_makeRSN (kind rc rsn : Int) :
    rsnLow (makeRSN kind rc rsn) = toUInt32 rsn / 256 % 65536 := by
  unfold rsnLow
  rw [makeRSN_word, lor_mod_65536, lor_mod_65536]
  have hA : toUInt32 kind * 16777216 % 4294967296 % 65536 = 0 := by omega
  have hB : toUInt32 rc * 65536 % 4294967296 % 65536 = 0 := by omega
  rw [hA, hB]
  simp

/-- Bits 23-16 of the composite status, for arbitrary arguments. -/
theorem rsnRC_makeRSN (kind rc rsn : Int) :
    rsnRC (makeRSN kind rc rsn) = toUInt32 rc % 256 := by
  unfold rsnRC
  rw [makeRSN_word, lor_div_65536, lor_div_65536, lor_mod_256, lor_mod_256]
  have hA : toUInt32 kind * 16777216 % 4294967296 / 65536 % 256 = 0 := by omega
  have hB : toUInt32 rc * 65536 % 4294967296 / 65536 % 256 = toUInt32 rc % 256 := by omega
  have hS : toUInt32 rsn / 256 % 65536 / 65536 % 256 = 0 := by omega
  rw [hA, hB, hS]
  simp

/-- Bits 31-24 of the composite status, for arbitrary arguments: the error kind's low
byte OR-ed with bits 15-8 of the return code. -/
theorem rsnKind_makeRSN (kind rc rsn : Int) :
    rsnKind (makeRSN kind rc rsn) = toUInt32 kind % 256 ||| toUInt32 rc / 256 % 256 := by
  unfold rsnKind
  rw [makeRSN_word, lor_div_16777216, lor_div_16777216]
  have hA : toUInt32 kind * 16777216 % 4294967296 / 16777216 = toUInt32 kind % 256 := by omega
  have hB : toUInt32 rc * 65536 % 4294967296 / 16777216 = toUInt32 rc / 256 % 256 := by omega
  have hS : toUInt32 rsn / 256 % 65536 / 16777216 = 0 := by omega
  rw [hA, hB, hS]
  simp

theorem rsnKind_makeRSN_small (kind rc rsn : Int) (hk0 : 0 ≤ kind) (hk : kind ≤ 255)
    (hr0 : 0 ≤ rc) (hr : rc ≤ 255) : (rsnKind (makeRSN kind rc rsn) : Int) = kind := by
  rw [rsnKind_makeRSN]
  have h1 : toUInt32 rc / 256 % 256 = 0 := by unfold toUInt32; omega
  have h2 : toUInt32 kind % 256 = kind.toNat := by unfold toUInt32; omega
  rw [h1, h2]
  simp
  omega

theorem rsnRC_makeRSN_small (kind rc rsn : Int) (hr0 : 0 ≤ rc) (hr : rc ≤ 255) :
    (rsnRC (makeRSN kind rc rsn) : Int) = rc := by
  rw [rsnRC_makeRSN]
  unfold toUInt32
  omega

/-! ## The public operations in closed form -/

/-- The segment computation of the two allocators is the spec's rounding rule. -/
theorem segmentCount_eq (size : Nat) (h : size < 18446744073709551616) :
    (if size &&& 0xFFFFF = 0 then size >>> 20
      else ((size >>> 20) + 1) % 18446744073709551616) = specUnits size := by
  have h1 : size &&& 0xFFFFF = size % 1048576 := Nat.and_pow_two_sub_one_eq_mod size 20
  have h2 : size >>> 20 = size / 1048576 := Nat.shiftRight_eq_div_pow size 20
  rw [h1, h2]
  unfold specUnits
  split
  · rfl
  · omega

theorem isIARV64OK_iff (rc : Int) : isIARV64OK rc = true ↔ rc < 8 := by
  simp [isIARV64OK]

theorem failed_iff (sys : Facility) (req : Request) :
    (!isIARV64OK (toInt32 (issue sys req).iarv64RC)) = true ↔ 8 ≤ facilityRC sys req := by
  rw [issue_rc]
  simp [isIARV64OK]

/-- The tail of a public operation, as written in the source, is `outcomeOf`. -/
theorem tail_eq (sys : Facility) (req : Request) (okRet failRet failKind : Int)
    (mobj : Option Nat) :
    (if (!isIARV64OK (toInt32 (issue sys req).iarv64RC)) = true then
      ({ ret := failRet, result := none,
         rsn := some (makeRSN failKind (toInt32 (issue sys req).iarv64RC)
           (toInt32 (issue sys req).iarv64RSN)),
         issued := [(issue sys req).request] } : Outcome)
    else { ret := okRet, result := mobj, rsn := none, issued := [(issue sys req).request] })
      = outcomeOf sys req okRet failRet failKind mobj := by
  unfold outcomeOf
  by_cases h : 8 ≤ facilityRC sys req
  · rw [if_pos ((failed_iff _ _).2 h), if_pos h, issue_rc, issue_rsn, issue_request]
  · rw [if_neg (fun h1 => h ((failed_iff _ _).1 h1)), if_neg h, issue_request]

theorem shrmem64Alloc_eq (K : ReturnCodes) (sys : Facility) (userToken size : Nat) :
    shrmem64Alloc K sys userToken size =
      outcomeOf sys
        (Request.GETSHARED (if size &&& 0xFFFFF = 0 then size >>> 20
          else ((size >>> 20) + 1) % 18446744073709551616) userToken)
        K.RC_SHRMEM64_OK K.RC_SHRMEM64_GETSHARED_FAILED K.RC_SHRMEM64_GETSHARED_FAILED
        (some ((sys (Request.GETSHARED (if size &&& 0xFFFFF = 0 then size >>> 20
          else ((size >>> 20) + 1) % 18446744073709551616) userToken)).origin
            % 18446744073709551616)) := by
  simp only [shrmem64Alloc, getSharedMemObject]
  exact tail_eq _ _ _ _ _ _

theorem shrmem64CommonAlloc2_eq (K : ReturnCodes) (sys : Facility) (userToken size : Nat)
    (key : Int) :
    shrmem64CommonAlloc2 K sys userToken size key =
      outcomeOf sys
        (Request.GETCOMMON (if size &&& 0xFFFFF = 0 then size >>> 20
          else ((size >>> 20) + 1) % 18446744073709551616) userToken (keyByte key))
        K.RC_SHRMEM64_OK K.RC_SHRMEM64_GETSHARED_FAILED K.RC_SHRMEM64_GETCOMMON_FAILED
        (some ((sys (Request.GETCOMMON (if size &&& 0xFFFFF = 0 then size >>> 20
          else ((size >>> 20) + 1) % 18446744073709551616) userToken (keyByte key))).origin
            % 18446744073709551616)) := by
  simp only [shrmem64CommonAlloc2, getCommonMemObject]
  exact tail_eq _ _ _ _ _ _

theorem shrmem64Release_eq (K : ReturnCodes) (sys : Facility) (userToken target : Nat) :
    shrmem64Release K sys userToken target =
      outcomeOf sys (Request.DETACH_SINGLE_SYSTEM target userToken) K.RC_SHRMEM64_OK
        K.RC_SHRMEM64_SINGLE_SYS_DETACH_FAILED K.RC_SHRMEM64_SINGLE_SYS_DETACH_FAILED none := by
  simp only [shrmem64Release, removeSystemInterestForSingleObject]
  exact tail_eq _ _ _ _ _ _

theorem shrmem64ReleaseAll_eq (K : ReturnCodes) (sys : Facility) (userToken : Nat) :
    shrmem64ReleaseAll K sys userToken =
      outcomeOf sys (Request.DETACH_MOTOKEN_SYSTEM userToken) K.RC_SHRMEM64_OK
        K.RC_SHRMEM64_ALL_SYS_DETACH_FAILED K.RC_SHRMEM64_ALL_SYS_DETACH_FAILED none := by
  simp only [shrmem64ReleaseAll, removeSystemInterestForAllObjects]
  exact tail_eq _ _ _ _ _ _

theorem shrmem64GetAccess_eq (K : ReturnCodes) (sys : Facility) (userToken target : Nat) :
    shrmem64GetAccess K sys userToken target =
      outcomeOf sys (Request.SHAREMEMOBJ target userToken) K.RC_SHRMEM64_OK
        K.RC_SHRMEM64_SHAREMEMOBJ_FAILED K.RC_SHRMEM64_SHAREMEMOBJ_FAILED none := by
  simp only [shrmem64GetAccess, shareMemObject]
  exact tail_eq _ _ _ _ _ _

theorem shrmem64RemoveAccess_eq (K : ReturnCodes) (sys : Facility) (userToken target : Nat) :
    shrmem64RemoveAccess K sys userToken target =
      outcomeOf sys (Request.DETACH_SINGLE_LOCAL target userToken true) K.RC_SHRMEM64_OK
        K.RC_SHRMEM64_DETACH_FAILED K.RC_SHRMEM64_DETACH_FAILED none := by
  simp only [shrmem64RemoveAccess, detachSingleSharedMemObject]
  exact tail_eq _ _ _ _ _ _

theorem shrmem64RemoveAccess2_eq (K : ReturnCodes) (sys : Facility) (userToken target : Nat)
    (isOwner : Bool) :
    shrmem64RemoveAccess2 K sys userToken target isOwner =
      outcomeOf sys (Request.DETACH_SINGLE_LOCAL target userToken isOwner) K.RC_SHRMEM64_OK
        K.RC_SHRMEM64_DETACH_FAILED K.RC_SHRMEM64_DETACH_FAILED none := by
  cases isOwner <;>
    simp only [shrmem64RemoveAccess2, detachSingleSharedMemObject,
      detachSingleSharedMemObjectNotOwner, if_true, if_false, Bool.false_eq_true] <;>
    exact tail_eq _ _ _ _ _ _

/-! ## Properties of the normal form -/

theorem outcomeOf_issued (sys : Facility) (req : Request) (okRet failRet failKind : Int)
    (mobj : Option Nat) : (outcomeOf sys req okRet failRet failKind mobj).issued = [req] := by
  unfold outcomeOf
  split <;> rfl

theorem outcomeOf_ok (sys : Facility) (req : Request) (okRet failRet failKind : Int)
    (mobj : Option Nat) (h : facilityRC sys req < 8) :
    outcomeOf sys req okRet failRet failKind mobj =
      { ret := okRet, result := mobj, rsn := none, issued := [req] } := by
  unfold outcomeOf
  rw [if_neg (by omega)]

theorem outcomeOf_failed (sys : Facility) (req : Request) (okRet failRet failKind : Int)
    (mobj : Option Nat) (h : 8 ≤ facilityRC sys req) :
    outcomeOf sys req okRet failRet failKind mobj =
      { ret := failRet, result := none,
        rsn := some (makeRSN failKind (facilityRC sys req) (facilityRSN sys req)),
        issued := [req] } := by
  unfold outcomeOf
  rw [if_pos h]

theorem facilityRC_of_retcode (sys : Facility) (req : Request) (rc : Int)
    (hrc : (sys req).retcode = rc) (hlo : -2147483648 ≤ rc) (hhi : rc < 2147483648) :
    facilityRC sys req = rc := by
  unfold facilityRC
  rw [hrc]
  exact toInt32_toUInt32 rc hlo hhi

theorem facilityRC_wrap (sys : Facility) (req : Request) :
    toInt32 (toUInt32 (facilityRC sys req)) = facilityRC sys req := by
  unfold facilityRC
  exact toInt32_wrap _

theorem kinds_range (K : ReturnCodes) (hK : K.WellFormed) :
    (1 ≤ K.RC_SHRMEM64_GETSHARED_FAILED ∧ K.RC_SHRMEM64_GETSHARED_FAILED ≤ 255) ∧
    (1 ≤ K.RC_SHRMEM64_GETCOMMON_FAILED ∧ K.RC_SHRMEM64_GETCOMMON_FAILED ≤ 255) ∧
    (1 ≤ K.RC_SHRMEM64_SHAREMEMOBJ_FAILED ∧ K.RC_SHRMEM64_SHAREMEMOBJ_FAILED ≤ 255) ∧
    (1 ≤ K.RC_SHRMEM64_DETACH_FAILED ∧ K.RC_SHRMEM64_DETACH_FAILED ≤ 255) ∧
    (1 ≤ K.RC_SHRMEM64_SINGLE_SYS_DETACH_FAILED ∧
      K.RC_SHRMEM64_SINGLE_SYS_DETACH_FAILED ≤ 255) ∧
    (1 ≤ K.RC_SHRMEM64_ALL_SYS_DETACH_FAILED ∧ K.RC_SHRMEM64_ALL_SYS_DETACH_FAILED ≤ 255) := by
  obtain ⟨_, _, h⟩ := hK
  simpa [ReturnCodes.kinds] using h

theorem getshared_ne_getcommon (K : ReturnCodes) (hK : K.WellFormed) :
    K.RC_SHRMEM64_GETSHARED_FAILED ≠ K.RC_SHRMEM64_GETCOMMON_FAILED := by
  obtain ⟨_, h, _⟩ := hK
  simp only [ReturnCodes.kinds, List.nodup_cons, List.mem_cons] at h
  exact fun e => h.1 (Or.inl e)

/-- A failing call in normal form, with a return code in `8..255` and an 8-bit error
kind: the error kind is returned and both upper bytes of the composite status
round-trip. -/
theorem outcomeOf_failedWith (sys : Facility) (req : Request) (okRet kind rc : Int)
    (mobj : Option Nat) (hk0 : 0 ≤ kind) (hk : kind ≤ 255)
    (hrc : (sys req).retcode = rc) (h8 : 8 ≤ rc) (h255 : rc ≤ 255) :
    (outcomeOf sys req okRet kind kind mobj).FailedWith kind rc := by
  have hf : facilityRC sys req = rc :=
    facilityRC_of_retcode sys req rc hrc (by omega) (by omega)
  rw [outcomeOf_failed _ _ _ _ _ _ (by omega), hf]
  exact ⟨rfl, _, rfl, rsnKind_makeRSN_small kind rc _ hk0 hk (by omega) h255,
    rsnRC_makeRSN_small kind rc _ (by omega) h255⟩

theorem outcomeOf_okIff (K : ReturnCodes) (sys : Facility) (req : Request) (failRet failKind : Int)
    (mobj : Option Nat) (hne : failRet ≠ K.RC_SHRMEM64_OK) :
    (outcomeOf sys req K.RC_SHRMEM64_OK failRet failKind mobj).OKIff K sys req := by
  refine ⟨outcomeOf_issued _ _ _ _ _ _, ?_⟩
  rw [facilityRC_wrap]
  by_cases h : 8 ≤ facilityRC sys req
  · rw [outcomeOf_failed _ _ _ _ _ _ h]
    constructor
    · intro e
      exact absurd e hne
    · intro e
      omega
  · rw [outcomeOf_ok _ _ _ _ _ _ (by omega)]
    constructor
    · intro _
      omega
    · intro _
      rfl

theorem outcomeOf_reportsFailure (sys : Facility) (req : Request) (okRet kind rc : Int)
    (mobj : Option Nat) (hk0 : 0 ≤ kind) (hk : kind ≤ 255) (h8 : 8 ≤ rc) (h255 : rc ≤ 255) :
    (outcomeOf sys req okRet kind kind mobj).ReportsFailure sys req kind rc :=
  ⟨outcomeOf_issued _ _ _ _ _ _, fun hrc =>
    outcomeOf_failedWith sys req okRet kind rc mobj hk0 hk hrc h8 h255⟩

theorem outcomeOf_allocFrame (K : ReturnCodes) (sys : Facility) (req : Request)
    (failRet failKind : Int) :
    (outcomeOf sys req K.RC_SHRMEM64_OK failRet failKind
      (some ((sys req).origin % 18446744073709551616))).AllocFrame K sys req failKind := by
  refine ⟨outcomeOf_issued _ _ _ _ _ _, ?_, ?_, ?_⟩
  · by_cases h : 8 ≤ facilityRC sys req
    · rw [outcomeOf_failed _ _ _ _ _ _ h]
      exact Or.inr ⟨rfl, rfl⟩
    · rw [outcomeOf_ok _ _ _ _ _ _ (by omega)]
      exact Or.inl ⟨rfl, rfl⟩
  · intro h
    rw [outcomeOf_ok _ _ _ _ _ _ h]
    exact ⟨rfl, rfl, rfl⟩
  · intro h
    rw [outcomeOf_failed _ _ _ _ _ _ h]
    exact ⟨rfl, rfl⟩

/-! ## Size and key normalization -/

/-- C1: for every byte size `s` below `2^64`, the segment count that `shrmem64Alloc` and
`shrmem64CommonAlloc2` pass to the facility is the spec's `units(s)`: `s / 2^20` when
`s mod 2^20 = 0` and `floor(s / 2^20) + 1` otherwise, which is the ceiling of `s / 2^20`
and fits in 64 bits, so the `+ 1` never wraps; `units` is 0, 1, 1, 2 at `0`, `1`, `2^20`,
`2^20 + 1`; both allocators request the same count for the same size. -/
theorem segment_count_is_ceiling (K : ReturnCodes) (sys : Facility) (token size : Nat)
    (key : Int) (h : size < 18446744073709551616) :
    (shrmem64Alloc K sys token size).issued = [Request.GETSHARED (specUnits size) token] ∧
    (shrmem64CommonAlloc2 K sys token size key).issued =
      [Request.GETCOMMON (specUnits size) token (keyByte key)] ∧
    specUnits size = (size + 1048575) / 1048576 ∧
    specUnits size < 18446744073709551616 ∧
    (shrmem64Alloc K sys token 0).issued = [Request.GETSHARED 0 token] ∧
    (shrmem64Alloc K sys token 1).issued = [Request.GETSHARED 1 token] ∧
    (shrmem64Alloc K sys token 1048576).issued = [Request.GETSHARED 1 token] ∧
    (shrmem64Alloc K sys token 1048577).issued = [Request.GETSHARED 2 token] := by
  refine ⟨?_, ?_, ?_, ?_, ?_, ?_, ?_, ?_⟩
  · rw [shrmem64Alloc_eq, outcomeOf_issued, segmentCount_eq size h]
  · rw [shrmem64CommonAlloc2_eq, outcomeOf_issued, segmentCount_eq size h]
  · unfold specUnits
    split <;> omega
  · unfold specUnits
    split <;> omega
  · rw [shrmem64Alloc_eq, outcomeOf_issued]
    rfl
  · rw [shrmem64Alloc_eq, outcomeOf_issued]
    rfl
  · rw [shrmem64Alloc_eq, outcomeOf_issued]
    rfl
  · rw [shrmem64Alloc_eq, outcomeOf_issued]
    rfl

/-- Witness of C1: one byte over three segments, with a facility that fails every
request. -/
theorem segment_count_is_ceiling_witness :
    (shrmem64Alloc exampleCodes (constFacility 0 8 0) 7 3145729).issued =
      [Request.GETSHARED 4 7] ∧
    (shrmem64CommonAlloc2 exampleCodes (constFacility 0 8 0) 7 3145729 1).issued =
      [Request.GETCOMMON 4 7 16] :=
  have h := segment_count_is_ceiling exampleCodes (constFacility 0 8 0) 7 3145729 1
    (by decide)
  ⟨h.1, h.2.1⟩

/-- C6: the key byte `getCommonMemObject` passes to the facility is `(key & 0xF) << 4`
for every `int` key: `0x0`, `0x1`, `0xF` give `0x00`, `0x10`, `0xF0`; a key behaves as
its low four bits (so `0x1F` behaves as `0xF`); the byte has a zero low nibble and is
below 256. -/
theorem key_byte_normalized (sys : Facility) (segmentCount token : Nat) (key : Int) :
    (getCommonMemObject sys segmentCount token key).2.request =
      Request.GETCOMMON segmentCount token (keyByte key) ∧
    keyByte key = (toUInt32 key &&& 0xF) <<< 4 ∧
    keyByte key = (toUInt32 key % 16) * 16 ∧
    keyByte 0x0 = 0x00 ∧ keyByte 0x1 = 0x10 ∧ keyByte 0xF = 0xF0 ∧
    keyByte key = keyByte (toInt32 (toUInt32 key &&& 0xF)) ∧
    keyByte 0x1F = keyByte 0xF ∧
    keyByte key % 16 = 0 ∧ keyByte key < 256 := by
  have hand : ∀ k : Int, toUInt32 k &&& 0xF = toUInt32 k % 16 := fun k =>
    Nat.and_pow_two_sub_one_eq_mod (toUInt32 k) 4
  have hkey : ∀ k : Int, keyByte k = (toUInt32 k % 16) * 16 := by
    intro k
    simp only [keyByte, hand, Nat.shiftLeft_eq]
    omega
  have hlow : toUInt32 (toInt32 (toUInt32 key % 16)) % 16 = toUInt32 key % 16 := by
    rw [toUInt32_toInt32]
    omega
  refine ⟨rfl, ?_, hkey key, by decide, by decide, by decide, ?_, by decide, ?_, ?_⟩
  · rw [hkey, hand, Nat.shiftLeft_eq]
  · rw [hkey, hkey, hand, hlow]
  · rw [hkey]
    omega
  · rw [hkey]
    omega

/-! ## Status classification and encoding -/

/-- C4, as amended: for every error kind in `0..255` and every reason code, bits 31-24 of
`makeRSN kind rc rsn` are the kind OR-ed with bits 15-8 of the return code's word; they
equal the kind for every return code in `0..255`. -/
theorem makeRSN_top_byte (kind rc rsn : Int) (hk0 : 0 ≤ kind) (hk : kind ≤ 255) :
    rsnKind (makeRSN kind rc rsn) = kind.toNat ||| toUInt32 rc / 256 % 256 ∧
    (0 ≤ rc → rc ≤ 255 → (rsnKind (makeRSN kind rc rsn) : Int) = kind) := by
  constructor
  · rw [rsnKind_makeRSN]
    have h2 : toUInt32 kind % 256 = kind.toNat := by unfold toUInt32; omega
    rw [h2]
  · intro hr0 hr
    exact rsnKind_makeRSN_small kind rc rsn hk0 hk hr0 hr

/-- Witness of the amended C4: kind 8, return code 12, a negative reason code. -/
theorem makeRSN_top_byte_witness : (rsnKind (makeRSN 8 12 (-1)) : Int) = 8 :=
  (makeRSN_top_byte 8 12 (-1) (by decide) (by decide)).2 (by decide) (by decide)

/-- Counterexample to C4 as stated: with error kind 0 and the 32-bit return code 256,
bits 31-24 of the composite status are 1, not the kind. -/
theorem makeRSN_top_byte_counterexample :
    rsnKind (makeRSN 0 256 0) = 1 ∧
    ¬ (∀ kind rc rsn : Int, 0 ≤ kind → kind ≤ 255 →
        -2147483648 ≤ rc → rc < 2147483648 → -2147483648 ≤ rsn → rsn < 2147483648 →
        (rsnKind (makeRSN kind rc rsn) : Int) = kind) := by
  refine ⟨by decide, fun h => ?_⟩
  have h1 := h 0 256 0 (by decide) (by decide) (by decide) (by decide) (by decide) (by decide)
  revert h1
  decide

/-- C7: for every error kind, return code and reason code, bits 15-0 of
`makeRSN kind rc rsn` are `(rsn >> 8) & 0xFFFF`, that is bits 23-8 of the reason code's
word, also for a negative reason code (`-1` gives `0xFFFF`, `-256` gives `0xFFFF`,
`-257` gives `0xFFFE`); two reason codes that agree on bits 23-8, in particular two that
differ only in bits 7-0 or only in bits 31-24, give the same composite status. -/
theorem makeRSN_low_halfword (kind rc rsn : Int) :
    rsnLow (makeRSN kind rc rsn) =
      toUInt32 (toInt32 (toUInt32 (rsn >>> (8 : Nat)) &&& 0x0000FFFF)) ∧
    rsnLow (makeRSN kind rc rsn) = toUInt32 rsn / 256 % 65536 ∧
    rsnLow (makeRSN kind rc (-1)) = 0xFFFF ∧
    rsnLow (makeRSN kind rc (-256)) = 0xFFFF ∧
    rsnLow (makeRSN kind rc (-257)) = 0xFFFE ∧
    (∀ rsn2 : Int, toUInt32 rsn / 256 % 65536 = toUInt32 rsn2 / 256 % 65536 →
      makeRSN kind rc rsn = makeRSN kind rc rsn2) ∧
    (∀ rsn2 : Int, toUInt32 rsn / 256 = toUInt32 rsn2 / 256 →
      makeRSN kind rc rsn = makeRSN kind rc rsn2) ∧
    (∀ rsn2 : Int, toUInt32 rsn % 16777216 = toUInt32 rsn2 % 16777216 →
      makeRSN kind rc rsn = makeRSN kind rc rsn2) := by
  have hsame : ∀ rsn2 : Int, toUInt32 rsn / 256 % 65536 = toUInt32 rsn2 / 256 % 65536 →
      makeRSN kind rc rsn = makeRSN kind rc rsn2 := by
    intro rsn2 e
    simp only [makeRSN, rsn_operand, e]
  refine ⟨?_, rsnLow_makeRSN kind rc rsn, ?_, ?_, ?_, hsame, ?_, ?_⟩
  · rw [rsnLow_makeRSN, rsn_operand]
  · rw [rsnLow_makeRSN]
    decide
  · rw [rsnLow_makeRSN]
    decide
  · rw [rsnLow_makeRSN]
    decide
  · intro rsn2 e
    exact hsame rsn2 (by rw [e])
  · intro rsn2 e
    exact hsame rsn2 (by omega)

/-- C5: `isIARV64OK rc` holds exactly when `rc < 8`, for every `int`: it holds at 0 and
4, fails at 8, 12 and 16, and is downward closed; and each of the eight status-returning
public operations issues its one request and returns `RC_SHRMEM64_OK` exactly when the
facility return code for that request, stored as `uint32_t` and converted back to `int`,
is below 8 (the error kinds being nonzero). -/
theorem ok_iff_below_eight (K : ReturnCodes) (hK : K.WellFormed) (sys : Facility)
    (token target size : Nat) (key : Int) (isOwner : Bool)
    (hsize : size < 18446744073709551616) :
    (∀ rc : Int, isIARV64OK rc = true ↔ rc < 8) ∧
    isIARV64OK 0 = true ∧ isIARV64OK 4 = true ∧
    isIARV64OK 8 = false ∧ isIARV64OK 12 = false ∧ isIARV64OK 16 = false ∧
    (∀ rc rc2 : Int, isIARV64OK rc = true → rc2 ≤ rc → isIARV64OK rc2 = true) ∧
    (shrmem64Alloc K sys token size).OKIff K sys
      (Request.GETSHARED (specUnits size) token) ∧
    (shrmem64CommonAlloc K sys token size).OKIff K sys
      (Request.GETCOMMON (specUnits size) token 0) ∧
    (shrmem64CommonAlloc2 K sys token size key).OKIff K sys
      (Request.GETCOMMON (specUnits size) token (keyByte key)) ∧
    (shrmem64Release K sys token target).OKIff K sys
      (Request.DETACH_SINGLE_SYSTEM target token) ∧
    (shrmem64ReleaseAll K sys token).OKIff K sys (Request.DETACH_MOTOKEN_SYSTEM token) ∧
    (shrmem64GetAccess K sys token target).OKIff K sys
      (Request.SHAREMEMOBJ target token) ∧
    (shrmem64RemoveAccess K sys token target).OKIff K sys
      (Request.DETACH_SINGLE_LOCAL target token true) ∧
    (shrmem64RemoveAccess2 K sys token target isOwner).OKIff K sys
      (Request.DETACH_SINGLE_LOCAL target token isOwner) := by
  obtain ⟨hs, _, hm, hd, h1, ha⟩ := kinds_range K hK
  have h0 : K.RC_SHRMEM64_OK = 0 := hK.1
  have hkey0 : keyByte 0 = 0 := by decide
  refine ⟨isIARV64OK_iff, by decide, by decide, by decide, by decide, by decide, ?_,
    ?_, ?_, ?_, ?_, ?_, ?_, ?_, ?_⟩
  · intro rc rc2 h hle
    rw [isIARV64OK_iff] at h ⊢
    omega
  · rw [shrmem64Alloc_eq, segmentCount_eq size hsize]
    exact outcomeOf_okIff K sys _ _ _ _ (by omega)
  · rw [shrmem64CommonAlloc, shrmem64CommonAlloc2_eq, segmentCount_eq size hsize, hkey0]
    exact outcomeOf_okIff K sys _ _ _ _ (by omega)
  · rw [shrmem64CommonAlloc2_eq, segmentCount_eq size hsize]
    exact outcomeOf_okIff K sys _ _ _ _ (by omega)
  · rw [shrmem64Release_eq]
    exact outcomeOf_okIff K sys _ _ _ _ (by omega)
  · rw [shrmem64ReleaseAll_eq]
    exact outcomeOf_okIff K sys _ _ _ _ (by omega)
  · rw [shrmem64GetAccess_eq]
    exact outcomeOf_okIff K sys _ _ _ _ (by omega)
  · rw [shrmem64RemoveAccess_eq]
    exact outcomeOf_okIff K sys _ _ _ _ (by omega)
  · rw [shrmem64RemoveAccess2_eq]
    exact outcomeOf_okIff K sys _ _ _ _ (by omega)

/-- Witness of C5: a release-all whose facility return code is 12 issues its request and
does not return the success code; a release whose return code is 4 does. -/
theorem ok_iff_below_eight_witness :
    (shrmem64ReleaseAll exampleCodes (constFacility 0 12 0) 7).OKIff exampleCodes
      (constFacility 0 12 0) (Request.DETACH_MOTOKEN_SYSTEM 7) ∧
    (shrmem64ReleaseAll exampleCodes (constFacility 0 12 0) 7).ret ≠
      exampleCodes.RC_SHRMEM64_OK ∧
    (shrmem64Release exampleCodes (constFacility 0 4 0) 7 4096).OKIff exampleCodes
      (constFacility 0 4 0) (Request.DETACH_SINGLE_SYSTEM 4096 7) ∧
    (shrmem64Release exampleCodes (constFacility 0 4 0) 7 4096).ret =
      exampleCodes.RC_SHRMEM64_OK :=
  ⟨(ok_iff_below_eight exampleCodes (by decide) (constFacility 0 12 0) 7 4096 1 0
      true (by decide)).2.2.2.2.2.2.2.2.2.2.2.1,
    by decide,
    (ok_iff_below_eight exampleCodes (by decide) (constFacility 0 4 0) 7 4096 1 0
      true (by decide)).2.2.2.2.2.2.2.2.2.2.1,
    by decide⟩

/-! ## Failure reporting -/

/-- C3: each of `shrmem64Alloc`, `shrmem64GetAccess`, `shrmem64RemoveAccess`,
`shrmem64RemoveAccess2`, `shrmem64Release` and `shrmem64ReleaseAll` issues its one
request, and whenever the facility answers that request with a return code `rc` in
`8..255` (and any reason code), the operation returns its own error kind and stores
through `rsn` a composite status whose bits 31-24 are that kind and whose bits 23-16 are
`rc`. -/
theorem failure_reports_own_kind (K : ReturnCodes) (hK : K.WellFormed) (sys : Facility)
    (token target size : Nat) (isOwner : Bool) (rc : Int)
    (hsize : size < 18446744073709551616) (h8 : 8 ≤ rc) (h255 : rc ≤ 255) :
    (shrmem64Alloc K sys token size).ReportsFailure sys
      (Request.GETSHARED (specUnits size) token) K.RC_SHRMEM64_GETSHARED_FAILED rc ∧
    (shrmem64GetAccess K sys token target).ReportsFailure sys
      (Request.SHAREMEMOBJ target token) K.RC_SHRMEM64_SHAREMEMOBJ_FAILED rc ∧
    (shrmem64RemoveAccess K sys token target).ReportsFailure sys
      (Request.DETACH_SINGLE_LOCAL target token true) K.RC_SHRMEM64_DETACH_FAILED rc ∧
    (shrmem64RemoveAccess2 K sys token target isOwner).ReportsFailure sys
      (Request.DETACH_SINGLE_LOCAL target token isOwner) K.RC_SHRMEM64_DETACH_FAILED rc ∧
    (shrmem64Release K sys token target).ReportsFailure sys
      (Request.DETACH_SINGLE_SYSTEM target token)
      K.RC_SHRMEM64_SINGLE_SYS_DETACH_FAILED rc ∧
    (shrmem64ReleaseAll K sys token).ReportsFailure sys
      (Request.DETACH_MOTOKEN_SYSTEM token) K.RC_SHRMEM64_ALL_SYS_DETACH_FAILED rc := by
  obtain ⟨hs, _, hm, hd, h1, ha⟩ := kinds_range K hK
  refine ⟨?_, ?_, ?_, ?_, ?_, ?_⟩
  · rw [shrmem64Alloc_eq, segmentCount_eq size hsize]
    exact outcomeOf_reportsFailure sys _ _ _ rc _ (by omega) hs.2 h8 h255
  · rw [shrmem64GetAccess_eq]
    exact outcomeOf_reportsFailure sys _ _ _ rc _ (by omega) hm.2 h8 h255
  · rw [shrmem64RemoveAccess_eq]
    exact outcomeOf_reportsFailure sys _ _ _ rc _ (by omega) hd.2 h8 h255
  · rw [shrmem64RemoveAccess2_eq]
    exact outcomeOf_reportsFailure sys _ _ _ rc _ (by omega) hd.2 h8 h255
  · rw [shrmem64Release_eq]
    exact outcomeOf_reportsFailure sys _ _ _ rc _ (by omega) h1.2 h8 h255
  · rw [shrmem64ReleaseAll_eq]
    exact outcomeOf_reportsFailure sys _ _ _ rc _ (by omega) ha.2 h8 h255

/-- Witness of C3: with a facility that answers return code 8, `shrmem64Alloc` of one
byte issues the one-segment request and fails with the get-shared kind, and
`shrmem64ReleaseAll` issues its request and fails with the all-system-detach kind. -/
theorem failure_reports_own_kind_witness :
    (shrmem64Alloc exampleCodes (constFacility 0 8 0x12345678) 7 1).issued =
      [Request.GETSHARED 1 7] ∧
    (shrmem64Alloc exampleCodes (constFacility 0 8 0x12345678) 7 1).FailedWith
      exampleCodes.RC_SHRMEM64_GETSHARED_FAILED 8 ∧
    (shrmem64ReleaseAll exampleCodes (constFacility 0 8 0x12345678) 7).issued =
      [Request.DETACH_MOTOKEN_SYSTEM 7] ∧
    (shrmem64ReleaseAll exampleCodes (constFacility 0 8 0x12345678) 7).FailedWith
      exampleCodes.RC_SHRMEM64_ALL_SYS_DETACH_FAILED 8 :=
  have h := failure_reports_own_kind exampleCodes (by decide)
    (constFacility 0 8 0x12345678) 7 4096 1 true 8 (by decide) (by decide) (by decide)
  ⟨h.1.1, h.1.2 rfl, h.2.2.2.2.2.1, h.2.2.2.2.2.2 rfl⟩

/-- C2 fails on the code: when the get-common request is answered with a return code in
`8..255`, `shrmem64CommonAlloc2` and `shrmem64CommonAlloc` return
`RC_SHRMEM64_GETSHARED_FAILED`, which is not `RC_SHRMEM64_GETCOMMON_FAILED`, while
bits 31-24 of the composite status they store through `rsn` hold
`RC_SHRMEM64_GETCOMMON_FAILED`: the returned kind and the packed kind differ. -/
theorem common_alloc_returns_getshared_kind (K : ReturnCodes) (hK : K.WellFormed)
    (sys : Facility) (token size : Nat) (key : Int) (req : Request) (rc : Int)
    (hreq : (shrmem64CommonAlloc2 K sys token size key).issued = [req])
    (hrc : (sys req).retcode = rc) (h8 : 8 ≤ rc) (h255 : rc ≤ 255) :
    (shrmem64CommonAlloc2 K sys token size key).ret = K.RC_SHRMEM64_GETSHARED_FAILED ∧
    (shrmem64CommonAlloc2 K sys token size key).ret ≠ K.RC_SHRMEM64_GETCOMMON_FAILED ∧
    (∃ v, (shrmem64CommonAlloc2 K sys token size key).rsn = some v ∧
      (rsnKind v : Int) = K.RC_SHRMEM64_GETCOMMON_FAILED ∧
      (rsnKind v : Int) ≠ (shrmem64CommonAlloc2 K sys token size key).ret) ∧
    (key = 0 → shrmem64CommonAlloc K sys token size =
      shrmem64CommonAlloc2 K sys token size key) := by
  obtain ⟨_, hc, _⟩ := kinds_range K hK
  have hne := getshared_ne_getcommon K hK
  rw [shrmem64CommonAlloc2_eq] at hreq
  rw [outcomeOf_issued] at hreq
  obtain rfl := List.singleton_inj.1 hreq
  have hf := facilityRC_of_retcode sys _ rc hrc (by omega) (by omega)
  have hform := shrmem64CommonAlloc2_eq K sys token size key
  rw [outcomeOf_failed _ _ _ _ _ _ (by omega), hf] at hform
  have hkind := rsnKind_makeRSN_small K.RC_SHRMEM64_GETCOMMON_FAILED rc
    (facilityRSN sys (Request.GETCOMMON (if size &&& 0xFFFFF = 0 then size >>> 20
      else ((size >>> 20) + 1) % 18446744073709551616) token (keyByte key)))
    (by omega) hc.2 (by omega) h255
  rw [hform]
  refine ⟨rfl, hne, ⟨_, rfl, hkind, ?_⟩, ?_⟩
  · rw [hkind]
    exact fun e => hne e.symm
  · intro hkey
    rw [← hform, hkey]
    rfl

/-- The failing input of C2, evaluated: one byte, key 0, a facility that answers return
code 8 with reason code `0x12345678`. -/
theorem common_alloc_returns_getshared_kind_witness :
    (shrmem64CommonAlloc2 exampleCodes (constFacility 0 8 0x12345678) 7 1 0).ret =
      exampleCodes.RC_SHRMEM64_GETSHARED_FAILED ∧
    (shrmem64CommonAlloc2 exampleCodes (constFacility 0 8 0x12345678) 7 1 0).ret ≠
      exampleCodes.RC_SHRMEM64_GETCOMMON_FAILED :=
  have h := common_alloc_returns_getshared_kind exampleCodes (by decide)
    (constFacility 0 8 0x12345678) 7 1 0 (Request.GETCOMMON 1 7 0) 8 rfl rfl
    (by decide) (by decide)
  ⟨h.1, h.2.1⟩

/-! ## Detach variants -/

/-- C8: `shrmem64RemoveAccess` is `shrmem64RemoveAccess2` with `isOwner = true`: for
every token, handle and facility both issue the same `OWNER=YES` single-object detach,
return the same code and store the same value, or nothing, through `rsn`; and
`shrmem64RemoveAccess2` issues the `OWNER=NO` request exactly when `isOwner` is false. -/
theorem remove_access_is_owner_detach (K : ReturnCodes) (sys : Facility)
    (token target : Nat) (isOwner : Bool) :
    shrmem64RemoveAccess K sys token target = shrmem64RemoveAccess2 K sys token target true ∧
    (shrmem64RemoveAccess K sys token target).issued =
      [Request.DETACH_SINGLE_LOCAL target token true] ∧
    (shrmem64RemoveAccess2 K sys token target isOwner).issued =
      [Request.DETACH_SINGLE_LOCAL target token isOwner] ∧
    ((shrmem64RemoveAccess2 K sys token target isOwner).issued =
      [Request.DETACH_SINGLE_LOCAL target token false] ↔ isOwner = false) ∧
    (shrmem64RemoveAccess2 K sys token target true).issued =
      [(detachSingleSharedMemObject sys target token).request] ∧
    (shrmem64RemoveAccess2 K sys token target false).issued =
      [(detachSingleSharedMemObjectNotOwner sys target token).request] := by
  refine ⟨?_, ?_, ?_, ?_, ?_, ?_⟩
  · rw [shrmem64RemoveAccess_eq, shrmem64RemoveAccess2_eq]
  · rw [shrmem64RemoveAccess_eq, outcomeOf_issued]
  · rw [shrmem64RemoveAccess2_eq, outcomeOf_issued]
  · rw [shrmem64RemoveAccess2_eq, outcomeOf_issued]
    cases isOwner <;> simp
  · rw [shrmem64RemoveAccess2_eq, outcomeOf_issued]
    rfl
  · rw [shrmem64RemoveAccess2_eq, outcomeOf_issued]
    rfl

/-! ## Frame of the allocators -/

/-- C10: `shrmem64Alloc` and `shrmem64CommonAlloc2` issue one request, for the rounded
segment count and the token, and store through exactly one of their two output pointers:
on a facility return code below 8 they return `RC_SHRMEM64_OK`, store the handle the
facility returned for that request through `result` and leave `rsn` alone; on a return
code of 8 or more they store the composite status through `rsn` and leave `result`
alone. -/
theorem alloc_writes_one_output (K : ReturnCodes) (sys : Facility) (token size : Nat)
    (key : Int) (h : size < 18446744073709551616) :
    (shrmem64Alloc K sys token size).AllocFrame K sys
      (Request.GETSHARED (specUnits size) token) K.RC_SHRMEM64_GETSHARED_FAILED ∧
    (shrmem64CommonAlloc2 K sys token size key).AllocFrame K sys
      (Request.GETCOMMON (specUnits size) token (keyByte key))
      K.RC_SHRMEM64_GETCOMMON_FAILED := by
  constructor
  · rw [shrmem64Alloc_eq, segmentCount_eq size h]
    exact outcomeOf_allocFrame K sys _ _ _
  · rw [shrmem64CommonAlloc2_eq, segmentCount_eq size h]
    exact outcomeOf_allocFrame K sys _ _ _

/-- Witness of C10: one byte, facility return code 0: one segment is requested, the
facility's handle is stored through `result`, nothing through `rsn`, and 0 is returned. -/
theorem alloc_writes_one_output_witness :
    shrmem64Alloc exampleCodes (constFacility 0x4800000000 0 0) 7 1 =
      { ret := 0, result := some 0x4800000000, rsn := none,
        issued := [Request.GETSHARED 1 7] } ∧
    (shrmem64Alloc exampleCodes (constFacility 0x4800000000 0 0) 7 1).AllocFrame
      exampleCodes (constFacility 0x4800000000 0 0) (Request.GETSHARED (specUnits 1) 7)
      exampleCodes.RC_SHRMEM64_GETSHARED_FAILED :=
  ⟨by decide, (alloc_writes_one_output exampleCodes (constFacility 0x4800000000 0 0) 7 1 0
    (by decide)).1⟩

/-! ## The address-space token -/

theorem loadBE_store (a b : Nat) :
    loadBE (storeBE32 a ++ storeBE32 b) = a % 4294967296 * 4294967296 + b % 4294967296 := by
  simp only [loadBE, storeBE32, List.cons_append, List.nil_append, List.foldl_cons,
    List.foldl_nil]
  omega

theorem localGetASCB_eq (m : LowCore) :
    localGetASCB m = m.mem (m.CURRENT_ASCB / 4) % 2147483648 := by
  have h : ∀ x : Nat, x &&& 0x7FFFFFFF = x % 2147483648 := fun x =>
    Nat.and_pow_two_sub_one_eq_mod x 31
  rw [localGetASCB, h]
  omega

theorem token_eq (m : LowCore) :
    shrmem64GetAddressSpaceToken m =
      localGetASCB m * 4294967296 + m.ascbasid (localGetASCB m) % 4294967296 := by
  have hlt : localGetASCB m < 2147483648 := by
    rw [localGetASCB_eq]
    omega
  have hmod : localGetASCB m % 4294967296 = localGetASCB m := Nat.mod_eq_of_lt (by omega)
  simp only [shrmem64GetAddressSpaceToken, loadBE_store, hmod]
  omega

/-- C9: `shrmem64GetAddressSpaceToken` returns `(descriptorAddress << 32) | asid`, where
`descriptorAddress` is the fullword at `CURRENT_ASCB` in low storage with its high bit
masked off (a 31-bit address) and `asid` is the ASCB's `ascbasid` converted to
`uint32_t` (the field itself when it fits in 32 bits); the token's high 32 bits are the
descriptor address, its low 32 bits are the ASID, and two tokens are equal exactly when
both the address and the ASID are. -/
theorem address_space_token_packs (m : LowCore) :
    shrmem64GetAddressSpaceToken m =
      (localGetASCB m <<< 32) ||| (m.ascbasid (localGetASCB m) % 4294967296) ∧
    localGetASCB m = m.mem (m.CURRENT_ASCB / 4) % 2147483648 ∧
    localGetASCB m < 2147483648 ∧
    (m.ascbasid (localGetASCB m) < 4294967296 →
      m.ascbasid (localGetASCB m) % 4294967296 = m.ascbasid (localGetASCB m)) ∧
    shrmem64GetAddressSpaceToken m >>> 32 = localGetASCB m ∧
    shrmem64GetAddressSpaceToken m % 4294967296 = m.ascbasid (localGetASCB m) % 4294967296 ∧
    shrmem64GetAddressSpaceToken m < 18446744073709551616 ∧
    (∀ m2 : LowCore,
      shrmem64GetAddressSpaceToken m = shrmem64GetAddressSpaceToken m2 ↔
        (localGetASCB m = localGetASCB m2 ∧
          m.ascbasid (localGetASCB m) % 4294967296 =
            m2.ascbasid (localGetASCB m2) % 4294967296)) := by
  have hlt : ∀ x : LowCore, localGetASCB x < 2147483648 := by
    intro x
    rw [localGetASCB_eq]
    omega
  have hm := hlt m
  refine ⟨?_, localGetASCB_eq m, hm, fun h => Nat.mod_eq_of_lt h, ?_, ?_, ?_, ?_⟩
  · rw [token_eq, Nat.shiftLeft_eq]
    have h := Nat.mul_add_lt_is_or
      (Nat.mod_lt (m.ascbasid (localGetASCB m)) (by decide : 0 < 2 ^ 32)) (localGetASCB m)
    norm_num at h
    rw [Nat.mul_comm (localGetASCB m)]
    exact h
  · rw [token_eq, Nat.shiftRight_eq_div_pow]
    norm_num
    omega
  · rw [token_eq]
    omega
  · rw [token_eq]
    omega
  · intro m2
    have hm2 := hlt m2
    rw [token_eq, token_eq]
    constructor
    · intro e
      omega
    · intro e
      obtain ⟨e1, e2⟩ := e
      rw [e2, e1]

end Shrmem64
